import Mathlib

/-!
Verification of the crossterm terminal-control command layer.

Shallow embedding of `src/terminal/sys/windows.rs`, `src/command/sys/std.rs`,
`src/command.rs`, `src/cursor/sys/unix.rs` and `src/error.rs`.
Machine integers (`DWORD`, `i16`) are modelled as `Nat`/`Int` with explicit
wrapping where the source performs casts; fallible native calls are modelled
with explicit fault schedules; traces record the native calls and sink
operations a function performs.
-/

namespace Crossterm

/-- The error type, from `src/error.rs`.  `Io` carries an identifier of the
underlying `std::io::Error` so that propagation of the cause is observable. -/
inductive CTError where
  | Io (cause : Nat)
  | CouldNotParseEvent
  | KeyboardEnhancementStatusTimeout
  | CursorPositionTimeout
  | InputReader
  | TerminalWidthTooSmall
  | TerminalHeightTooSmall
  | TerminalWidthTooLarge
  | TerminalHeightTooLarge
  | CursorXOutOfRange (x : Nat)
  | CursorYOutOfRange (y : Nat)
  | SetUnderlineColorUnsupported
  | BracketedPasteUnsupported
  | KeyboardProgressiveEnhancementUnsupported
  | Test
deriving DecidableEq, Repr

/-! ## Raw mode (`src/terminal/sys/windows.rs`, lines 14-50)

The console mode is a 32-bit `DWORD` bitmask, modelled as a `Nat < 2^32`.
`ENABLE_PROCESSED_INPUT = 0x0001`, `ENABLE_LINE_INPUT = 0x0002`,
`ENABLE_ECHO_INPUT = 0x0004`. -/

def ENABLE_PROCESSED_INPUT : Nat := 0x0001

def ENABLE_LINE_INPUT : Nat := 0x0002

def ENABLE_ECHO_INPUT : Nat := 0x0004

/-- bits which can't be set in raw mode -/
def NOT_RAW_MODE_MASK : Nat := ENABLE_LINE_INPUT ||| ENABLE_ECHO_INPUT ||| ENABLE_PROCESSED_INPUT

/-- 32-bit all-ones mask; Rust's `!x` on a `DWORD` is `x ^^^ DWORD_ONES`. -/
def DWORD_ONES : Nat := 2 ^ 32 - 1

/-- `enable_raw_mode`: reads the mode and stores `dw_mode & !NOT_RAW_MODE_MASK`.
The mode-bitmask transformation it applies. -/
def enable_raw_mode (dw_mode : Nat) : Nat :=
  dw_mode &&& (DWORD_ONES ^^^ NOT_RAW_MODE_MASK)

/-- `disable_raw_mode`: reads the mode and stores `dw_mode | NOT_RAW_MODE_MASK`. -/
def disable_raw_mode (dw_mode : Nat) : Nat :=
  dw_mode ||| NOT_RAW_MODE_MASK

/-- `is_raw_mode_enabled`: none of the "not raw" bits is set. -/
def is_raw_mode_enabled (dw_mode : Nat) : Bool :=
  dw_mode &&& NOT_RAW_MODE_MASK == 0

/-! ## Screen clearing (`src/terminal/sys/windows.rs`, lines 69-90 and 216-324)

A console-state snapshot consists of the cursor coordinate `pos`, the buffer
`Size` and the current text attribute; `clear` dispatches on the `ClearType`
to one of five helpers, each of which computes a start coordinate and a cell
count and hands them to `clear_winapi`, which issues two native fill calls
(character fill, then attribute fill) over the same range, and some of which
additionally issue a `cursor::sys::move_to` call. -/

structure Size where
  width : Nat
  height : Nat
deriving DecidableEq, Repr

structure Coord where
  x : Nat
  y : Nat
deriving DecidableEq, Repr

/-- The clear variants of `ClearType` (`src/terminal.rs` is not in the sources;
the variants are those matched in `clear`, plus the catch-all `Purge`). -/
inductive ClearType where
  | All
  | FromCursorDown
  | FromCursorUp
  | CurrentLine
  | UntilNewLine
  | Purge
deriving DecidableEq, Repr

/-- Which of the two native fill calls of `clear_winapi` a record stands for. -/
inductive FillKind where
  | chr
  | attrFill
deriving DecidableEq, Repr

/-- One native fill call: fill `count` cells in row-major order starting at
`start` (clipped at the end of the screen buffer, per the native console
fill-call semantics of §6 of the spec). -/
structure FillCall where
  kind : FillKind
  start : Coord
  count : Nat
deriving DecidableEq, Repr

/-- The observable effect of a clear operation: the native fill calls issued,
in order, and the `cursor::sys::move_to` calls issued, in order. -/
structure ClearEffect where
  fills : List FillCall
  moves : List Coord
deriving DecidableEq, Repr

/-- `clear_winapi`: fills `cells_to_write` cells with `' '` starting at
`start_location`, then fills the same range with the current attribute. -/
def clear_winapi (start_location : Coord) (cells_to_write : Nat) : ClearEffect :=
  { fills := [⟨FillKind.chr, start_location, cells_to_write⟩,
              ⟨FillKind.attrFill, start_location, cells_to_write⟩],
    moves := [] }

/-- `clear_after_cursor` (lines 216-236). -/
def clear_after_cursor (location : Coord) (buffer_size : Size) : ClearEffect :=
  let xy : Nat × Nat :=
    -- if cursor position is at the outer right position
    if location.x > buffer_size.width then (0, location.y + 1) else (location.x, location.y)
  let start_location : Coord := ⟨xy.1, xy.2⟩
  let cells_to_write := buffer_size.width * buffer_size.height
  clear_winapi start_location cells_to_write

/-- `clear_before_cursor` (lines 238-258). -/
def clear_before_cursor (location : Coord) (buffer_size : Size) : ClearEffect :=
  let start_location : Coord := ⟨0, 0⟩
  let cells_to_write := buffer_size.width * location.y + (location.x + 1)
  clear_winapi start_location cells_to_write

/-- `clear_entire_screen` (lines 260-273): fill the whole buffer, then put the
cursor back at cell (0, 0). -/
def clear_entire_screen (buffer_size : Size) : ClearEffect :=
  let cells_to_write := buffer_size.width * buffer_size.height
  let e := clear_winapi ⟨0, 0⟩ cells_to_write
  { e with moves := e.moves ++ [⟨0, 0⟩] }

/-- `clear_current_line` (lines 275-292): fill the whole current row, then put
the cursor back at cell 0 on the current row. -/
def clear_current_line (location : Coord) (buffer_size : Size) : ClearEffect :=
  let e := clear_winapi ⟨0, location.y⟩ buffer_size.width
  { e with moves := e.moves ++ [⟨0, location.y⟩] }

/-- `clear_until_line` (lines 294-313): fill from the cursor to the end of the
row, then put the cursor back at its original position. -/
def clear_until_line (location : Coord) (buffer_size : Size) : ClearEffect :=
  let e := clear_winapi ⟨location.x, location.y⟩ (buffer_size.width - location.x)
  { e with moves := e.moves ++ [⟨location.x, location.y⟩] }

/-- `clear` (lines 69-90): dispatch on the `ClearType` with the snapshot of
cursor position and buffer size. -/
def clear (clear_type : ClearType) (pos : Coord) (buffer_size : Size) : ClearEffect :=
  match clear_type with
  | ClearType.All => clear_entire_screen buffer_size
  | ClearType.FromCursorDown => clear_after_cursor pos buffer_size
  | ClearType.FromCursorUp => clear_before_cursor pos buffer_size
  | ClearType.CurrentLine => clear_current_line pos buffer_size
  | ClearType.UntilNewLine => clear_until_line pos buffer_size
  | _ => clear_entire_screen buffer_size

/-- Row-major linear index of a coordinate in a buffer `w` cells wide. -/
def Coord.linear (c : Coord) (w : Nat) : Nat := c.y * w + c.x

/-- Modelled from the spec: a native fill call writes cells in row-major order
from its start coordinate and stops at the end of the screen buffer, so in a
`w × h` buffer it blanks exactly the linear indices
`[start, min (start + count) (w * h))`. -/
def FillCall.blanksCell (f : FillCall) (w h i : Nat) : Prop :=
  f.start.linear w ≤ i ∧ i < f.start.linear w + f.count ∧ i < w * h

/-- A cell (by linear index) is blanked by a clear operation when some of its
character fill calls covers it. -/
def ClearEffect.blanks (e : ClearEffect) (w h i : Nat) : Prop :=
  ∃ f ∈ e.fills, f.kind = FillKind.chr ∧ f.blanksCell w h i

instance {ε α : Type} [DecidableEq ε] [DecidableEq α] : DecidableEq (Except ε α) :=
  fun a b =>
    match a, b with
    | Except.ok x, Except.ok y =>
        if h : x = y then isTrue (by rw [h]) else isFalse (by simp [h])
    | Except.error x, Except.error y =>
        if h : x = y then isTrue (by rw [h]) else isFalse (by simp [h])
    | Except.ok _, Except.error _ => isFalse (by simp)
    | Except.error _, Except.ok _ => isFalse (by simp)

/-! ## Resizing (`src/terminal/sys/windows.rs`, lines 124-192)

The console state visible to `set_size`: the screen-buffer size, the terminal
window rectangle, and the largest allowed window size reported by the native
`largest_window_size` call.  All fields are `i16` quantities, modelled as
`Int`.  `Modelled from the spec` (§6, native console object): each native call
(`set_size` on the screen buffer, `set_console_info`, `largest_window_size`)
either succeeds and performs its state update atomically, or fails — per the
fault schedule `Faults` — leaving the state unchanged; the trace records every
native call attempted, in order. -/

structure ConsoleState where
  bufW : Int
  bufH : Int
  winLeft : Int
  winTop : Int
  winRight : Int
  winBottom : Int
  maxW : Int
  maxH : Int
deriving DecidableEq, Repr

/-- Fault schedule for the native calls `set_size` performs, in program order:
the buffer grow, the window resize (`set_console_info`), the buffer shrink
back, and the `largest_window_size` query. -/
structure Faults where
  growFails : Bool
  setInfoFails : Bool
  shrinkFails : Bool
  largestFails : Bool
deriving DecidableEq, Repr

inductive NativeCall where
  | setBufferSize (w h : Int)
  | setConsoleInfo (left top right bottom : Int)
  | largestWindowSize
deriving DecidableEq, Repr

/-- Rust's `as i16` cast: truncation to 16 bits, two's complement. -/
def asI16 (n : Nat) : Int :=
  if n % 65536 < 32768 then (n % 65536 : Int) else (n % 65536 : Int) - 65536

/-- The tail of `set_size` after the buffer grow (lines 170-191): apply the
new window bounds preserving the top-left origin, shrink the buffer back to
`(current_w, current_h)` if it was grown, then validate against the largest
window size. -/
def set_size_after_grow (w h current_w current_h : Int) (resize_buffer : Bool)
    (s1 : ConsoleState) (fl : Faults) (tr : List NativeCall) :
    Except CTError Unit × ConsoleState × List NativeCall :=
  -- preserve the position, but change the size
  let right := s1.winLeft + w - 1
  let bottom := s1.winTop + h - 1
  let tr1 := tr ++ [NativeCall.setConsoleInfo s1.winLeft s1.winTop right bottom]
  if fl.setInfoFails then (Except.error (CTError.Io 1), s1, tr1)
  else
    let s2 := { s1 with winRight := right, winBottom := bottom }
    -- if we resized the buffer, un-resize it
    let tr2 := tr1 ++
      (if resize_buffer then
        [NativeCall.setBufferSize (current_w - 1) (current_h - 1)] else [])
    if resize_buffer && fl.shrinkFails then (Except.error (CTError.Io 2), s2, tr2)
    else
      let s3 := if resize_buffer then { s2 with bufW := current_w, bufH := current_h }
        else s2
      let tr3 := tr2 ++ [NativeCall.largestWindowSize]
      if fl.largestFails then (Except.error (CTError.Io 3), s3, tr3)
      else if s3.maxW < w then (Except.error CTError.TerminalWidthTooLarge, s3, tr3)
      else if s3.maxH < h then (Except.error CTError.TerminalHeightTooLarge, s3, tr3)
      else (Except.ok (), s3, tr3)

/-- `set_size` (lines 124-192): validate against too-small sizes, grow the
buffer if it does not fit the requested window, then run the
`set_size_after_grow` tail.  Returns the call's result, the final console
state, and the trace of attempted native calls.  A `?` on a failed native
call aborts exactly as in the source. -/
def set_size (width height : Nat) (s : ConsoleState) (fl : Faults) :
    Except CTError Unit × ConsoleState × List NativeCall :=
  if width ≤ 1 then (Except.error CTError.TerminalWidthTooSmall, s, [])
  else if height ≤ 1 then (Except.error CTError.TerminalHeightTooSmall, s, [])
  else
    -- snapshot: current buffer size and window rectangle
    let current_w := s.bufW
    let current_h := s.bufH
    let w := asI16 width
    let h := asI16 height
    if s.bufW < s.winLeft + w ∧ 32767 - w ≤ s.winLeft then
      (Except.error CTError.TerminalWidthTooLarge, s, [])
    else
      let new_w := if s.bufW < s.winLeft + w then s.winLeft + w else current_w
      let resize_w : Bool := decide (s.bufW < s.winLeft + w)
      if s.bufH < s.winTop + h ∧ 32767 - h ≤ s.winTop then
        (Except.error CTError.TerminalHeightTooLarge, s, [])
      else
        let new_h := if s.bufH < s.winTop + h then s.winTop + h else current_h
        let resize_buffer : Bool := resize_w || decide (s.bufH < s.winTop + h)
        let tr0 : List NativeCall :=
          if resize_buffer then [NativeCall.setBufferSize (new_w - 1) (new_h - 1)] else []
        if resize_buffer && fl.growFails then
          (Except.error (CTError.Io 0), s, tr0)
        else
          let s1 := if resize_buffer then { s with bufW := new_w, bufH := new_h } else s
          set_size_after_grow w h current_w current_h resize_buffer s1 fl tr0

/-! ## Command dispatch (`src/command/sys/std.rs`, lines 60-73, 117-121,
178-183, and `src/command.rs`)

The byte sink (`impl Write`) is modelled as a buffer of pending (written but
not yet flushed) bytes plus an event log: each `flush` call appends a
`flushed` event carrying the bytes it delivers, and each direct
`execute_winapi` call appends a `native` event.  A command is its ANSI byte
representation, the (cached, per-process) result of its
`is_ansi_code_supported` viability probe, and an identifier naming its
`execute_winapi` native action. -/

inductive SinkEvent where
  | flushed (delivered : List Nat)
  | native (id : Nat)
deriving DecidableEq, Repr

structure Sink where
  pending : List Nat
  events : List SinkEvent
deriving DecidableEq, Repr

structure Command where
  id : Nat
  ansi : List Nat
  ansiSupported : Bool
deriving DecidableEq, Repr

def Sink.flush (s : Sink) : Sink :=
  { pending := [], events := s.events ++ [SinkEvent.flushed s.pending] }

/-- `write_command_ansi` at the sink level (success path): the command's ANSI
bytes are written into the sink's buffered output. -/
def Sink.writeAnsi (s : Sink) (c : Command) : Sink :=
  { s with pending := s.pending ++ c.ansi }

/-- `queue` (lines 60-73): when the viability probe is false, flush the writer
first — there may be queued commands in it — then invoke the command's
`execute_winapi` directly and write nothing into the sink; otherwise render
the command's ANSI bytes into the sink. -/
def queue (s : Sink) (c : Command) : Sink :=
  if !c.ansiSupported then
    let s1 := s.flush
    { s1 with events := s1.events ++ [SinkEvent.native c.id] }
  else
    s.writeAnsi c

/-- `execute` (lines 117-121): `queue` followed by `flush`. -/
def execute (s : Sink) (c : Command) : Sink :=
  (queue s c).flush

/-- `sync_update` (lines 178-183): queue the `BeginSynchronizedUpdate` marker,
run the caller-supplied operations — characterized by the bytes they write
through the sink and the value they return, which may itself be a failure
value — then execute the `EndSynchronizedUpdate` marker, and pass the
operations' return value through. -/
def sync_update {α : Type} (s : Sink) (beginC endC : Command)
    (opBytes : List Nat) (opResult : α) : Except CTError α × Sink :=
  let s1 := queue s beginC
  let s2 := { s1 with pending := s1.pending ++ opBytes }
  let s3 := execute s2 endC
  (Except.ok opResult, s3)

/-! ## ANSI rendering (`src/command/sys/std.rs`, lines 186-218)

`write_command_ansi` wraps the byte sink in an `Adapter` whose `write_str`
forwards each chunk to the sink's `write_all`, recording the underlying io
error in `res` on failure.  The command under test is the canonical
well-behaved one: it writes its `chunks` in order, propagating the first
formatting error, and — when `spurious` — reports a formatting error of its
own at the end even though the sink never failed.  The sink's fault schedule
`failAt` makes the `write_all` of the chunk with that index fail, with the
index as the underlying io-error cause. -/

structure Adapter where
  written : List (List Nat)
  res : Option CTError
deriving DecidableEq, Repr

/-- One `write_str` call through the adapter. -/
def Adapter.writeStr (a : Adapter) (chunk : List Nat) (sinkFail : Bool) (cause : Nat) :
    Adapter × Bool :=
  if sinkFail then ({ a with res := some (CTError.Io cause) }, false)
  else ({ a with written := a.written ++ [chunk] }, true)

/-- The command's `write_ansi` against the adapter: write each chunk with
`write_str`, stopping at the first error; `spurious` makes it report a
formatting error at the end with the sink intact.  Returns the final adapter
and the `fmt::Result` (`true` = `Ok`). -/
def runWriteAnsi (a : Adapter) (chunks : List (List Nat)) (failAt : Option Nat)
    (idx : Nat) (spurious : Bool) : Adapter × Bool :=
  match chunks with
  | [] => (a, !spurious)
  | c :: rest =>
    let step := a.writeStr c (decide (failAt = some idx)) idx
    if step.2 then runWriteAnsi step.1 rest failAt (idx + 1) spurious
    else (step.1, false)

/-- The three ways `write_command_ansi` can come back. -/
inductive WriteOutcome where
  | ok
  | err (e : CTError)
  | panicked
deriving DecidableEq, Repr

/-- `write_command_ansi` (lines 186-218): run the command's `write_ansi`
against a fresh adapter; on a formatting error, return the io error the
adapter recorded — or `panic!` (`panicked`) when the adapter recorded none,
i.e. the command's rendering errored without the sink having failed. -/
def write_command_ansi (chunks : List (List Nat)) (spurious : Bool)
    (failAt : Option Nat) : WriteOutcome :=
  let r := runWriteAnsi ⟨[], none⟩ chunks failAt 0 spurious
  if r.2 then WriteOutcome.ok
  else
    match r.1.res with
    | none => WriteOutcome.panicked
    | some e => WriteOutcome.err e

/-! ## Cursor position (`src/cursor/sys/unix.rs`)

`position` checks `is_raw_mode_enabled`; when raw mode is off it wraps the
raw read in an enable/disable pair (`read_position`).  The enable and disable
native calls are modelled as atomic toggles of the process-wide raw-mode flag
that either succeed or fail per a fault schedule; the inner
`read_position_raw` is characterized by its result.  `read_position_raw`
itself polls the input-event channel in a loop, each iteration issuing one
`poll_internal` with a fresh 2000 ms timeout; the channel is modelled as the
list of outcomes successive poll iterations observe. -/

/-- What one iteration of the `read_position_raw` loop observes:
`ready r` is `poll_internal` returning `Ok(true)` with `r` the subsequent
`read_internal` outcome (`some (x, y)` when a cursor-position event is read,
`none` when the read fails to produce one); `timeout` is `Ok(false)`;
`err` is `Err(_)`. -/
inductive PollStep where
  | ready (r : Option (Nat × Nat))
  | timeout
  | err
deriving DecidableEq, Repr

/-- The `loop` of `read_position_raw` (lines 39-53), run against the listed
poll outcomes: `some result` when the loop returns within the listed
iterations, `none` when it is still looping after consuming them all. -/
def read_position_raw_loop (steps : List PollStep) :
    Option (Except CTError (Nat × Nat)) :=
  match steps with
  | [] => none
  | s :: rest =>
    match s with
    | PollStep.ready (some p) => some (Except.ok p)
    | PollStep.ready none => read_position_raw_loop rest
    | PollStep.timeout => some (Except.error CTError.CursorPositionTimeout)
    | PollStep.err => read_position_raw_loop rest

/-- `read_position` (lines 26-31): `enable_raw_mode()?`, the raw read, then
`disable_raw_mode()?` before the read's result is returned.  The pair of a
call result and the final raw-mode flag. -/
def read_position (queryRes : Except CTError (Nat × Nat))
    (enableOk disableOk : Bool) : Except CTError (Nat × Nat) × Bool :=
  if !enableOk then (Except.error (CTError.Io 0), false)
  else
    let pos := queryRes
    if !disableOk then (Except.error (CTError.Io 1), true)
    else (pos, false)

/-- `position` (lines 18-24): with raw mode already enabled, the raw read runs
directly and the flag is never toggled; otherwise `read_position` wraps it.
Returns the call result, the final raw-mode flag, and the number of raw-mode
toggle calls issued. -/
def position (rawInit : Bool) (queryRes : Except CTError (Nat × Nat))
    (enableOk disableOk : Bool) : Except CTError (Nat × Nat) × Bool × Nat :=
  if rawInit then (queryRes, rawInit, 0)
  else
    let r := read_position queryRes enableOk disableOk
    (r.1, r.2, if enableOk then 2 else 1)

end Crossterm

namespace Crossterm

theorem notRawModeMask_eq : NOT_RAW_MODE_MASK = 7 := by decide

theorem testBit_notRawModeMask (i : Nat) :
    Nat.testBit NOT_RAW_MODE_MASK i = decide (i < 3) := by
  have h : NOT_RAW_MODE_MASK = 2 ^ 3 - 1 := by decide
  rw [h, Nat.testBit_two_pow_sub_one]

theorem testBit_dwordOnes (i : Nat) :
    Nat.testBit DWORD_ONES i = decide (i < 32) := by
  have h : DWORD_ONES = 2 ^ 32 - 1 := rfl
  rw [h, Nat.testBit_two_pow_sub_one]

/-- C1 counterexample: starting from console mode `0` (all three tracked bits
clear), `enable_raw_mode` followed by `disable_raw_mode` yields mode `7`, not
the original `0` — the round trip does not restore the original bitmask. -/
theorem rawMode_roundtrip_counterexample :
    disable_raw_mode (enable_raw_mode 0) = 7 ∧ (7 : Nat) ≠ 0 := by decide

/-- C1 (amended): for every initial 32-bit console mode, `enable_raw_mode`
then `disable_raw_mode` yields the original mode with the three tracked bits
(line input, echo input, processed input) forced on; neither call disturbs any
mode bit outside those three; and the round trip restores the exact original
bitmask precisely when all three tracked bits were already set initially. -/
theorem rawMode_roundtrip_amended (m : Nat) (hm : m < 2 ^ 32) :
    disable_raw_mode (enable_raw_mode m) = m ||| NOT_RAW_MODE_MASK ∧
    (∀ i, 3 ≤ i → Nat.testBit (enable_raw_mode m) i = Nat.testBit m i ∧
      Nat.testBit (disable_raw_mode m) i = Nat.testBit m i) ∧
    (m &&& NOT_RAW_MODE_MASK = NOT_RAW_MODE_MASK →
      disable_raw_mode (enable_raw_mode m) = m) := by
  have hbit : ∀ i, 32 ≤ i → Nat.testBit m i = false := by
    intro i hi
    exact Nat.testBit_lt_two_pow (lt_of_lt_of_le hm (Nat.pow_le_pow_right (by norm_num) hi))
  have h1 : disable_raw_mode (enable_raw_mode m) = m ||| NOT_RAW_MODE_MASK := by
    apply Nat.eq_of_testBit_eq
    intro i
    simp only [disable_raw_mode, enable_raw_mode, Nat.testBit_or, Nat.testBit_and,
      Nat.testBit_xor, testBit_notRawModeMask, testBit_dwordOnes]
    by_cases h3 : i < 3
    · simp [h3]
    · by_cases h32 : i < 32
      · simp [h3, h32]
      · simp [h3, h32, hbit i (le_of_not_lt h32)]
  refine ⟨h1, ?_, ?_⟩
  · intro i hi
    have h3 : ¬ i < 3 := by omega
    constructor
    · simp only [enable_raw_mode, Nat.testBit_and, Nat.testBit_xor,
        testBit_notRawModeMask, testBit_dwordOnes]
      by_cases h32 : i < 32
      · simp [h3, h32]
      · simp [h3, h32, hbit i (le_of_not_lt h32)]
    · simp only [disable_raw_mode, Nat.testBit_or, testBit_notRawModeMask]
      simp [h3]
  · intro hmask
    have hlow : ∀ i, i < 3 → Nat.testBit m i = true := by
      intro i h3
      have := congrArg (fun x => Nat.testBit x i) hmask
      simpa [Nat.testBit_and, testBit_notRawModeMask, h3] using this
    refine h1.trans ?_
    apply Nat.eq_of_testBit_eq
    intro i
    simp only [Nat.testBit_or, testBit_notRawModeMask]
    by_cases h3 : i < 3
    · simp [h3, hlow i h3]
    · simp [h3]

/-- Witness for C1's amended theorem at the concrete mode `15 = 0b1111`. -/
theorem rawMode_roundtrip_amended_witness :
    disable_raw_mode (enable_raw_mode 15) = 15 :=
  (rawMode_roundtrip_amended 15 (by norm_num)).2.2 (by decide)

/-- C2: for every buffer size `w × h` and cursor coordinate `(x, y)` inside
the buffer, the set of cells blanked by each clear variant equals exactly the
analytically computed range for that variant (cells named by row-major linear
index): the entire screen blanks every cell; from-cursor-down blanks exactly
the cells from the cursor to the end of the buffer; from-cursor-up blanks
exactly the cells from the start through the cursor; current-line blanks
exactly the cursor's row; until-line-end blanks exactly the cells from the
cursor to the end of its row. -/
theorem clear_blanks_exact_range (w h x y i : Nat) (hx : x < w) (hy : y < h) :
    ((clear ClearType.All ⟨x, y⟩ ⟨w, h⟩).blanks w h i ↔ i < w * h) ∧
    ((clear ClearType.FromCursorDown ⟨x, y⟩ ⟨w, h⟩).blanks w h i ↔
      y * w + x ≤ i ∧ i < w * h) ∧
    ((clear ClearType.FromCursorUp ⟨x, y⟩ ⟨w, h⟩).blanks w h i ↔ i ≤ y * w + x) ∧
    ((clear ClearType.CurrentLine ⟨x, y⟩ ⟨w, h⟩).blanks w h i ↔
      y * w ≤ i ∧ i < y * w + w) ∧
    ((clear ClearType.UntilNewLine ⟨x, y⟩ ⟨w, h⟩).blanks w h i ↔
      y * w + x ≤ i ∧ i < y * w + w) := by
  have hc : w * y = y * w := Nat.mul_comm w y
  have hb : y * w + w ≤ w * h := by
    calc y * w + w = (y + 1) * w := by ring
    _ ≤ h * w := Nat.mul_le_mul_right w hy
    _ = w * h := Nat.mul_comm h w
  have hif : ¬ (x > w) := by omega
  refine ⟨?_, ?_, ?_, ?_, ?_⟩ <;>
    simp only [clear, clear_entire_screen, clear_after_cursor, clear_before_cursor,
      clear_current_line, clear_until_line, clear_winapi, ClearEffect.blanks,
      FillCall.blanksCell, Coord.linear, hif, if_false, List.mem_cons,
      List.mem_singleton, List.not_mem_nil] <;>
    constructor
  · rintro ⟨f, hf, hk, hblank⟩
    rcases hf with rfl | rfl | h0
    · omega
    · simp at hk
    · simp at h0
  · intro hi
    exact ⟨⟨FillKind.chr, ⟨0, 0⟩, w * h⟩, Or.inl rfl, rfl, by simp [Coord.linear]; omega⟩
  · rintro ⟨f, hf, hk, hblank⟩
    rcases hf with rfl | rfl | h0
    · simp [Coord.linear] at hblank; omega
    · simp at hk
    · simp at h0
  · intro hi
    exact ⟨⟨FillKind.chr, ⟨x, y⟩, w * h⟩, Or.inl rfl, rfl, by simp [Coord.linear]; omega⟩
  · rintro ⟨f, hf, hk, hblank⟩
    rcases hf with rfl | rfl | h0
    · simp [Coord.linear] at hblank; omega
    · simp at hk
    · simp at h0
  · intro hi
    exact ⟨⟨FillKind.chr, ⟨0, 0⟩, w * y + (x + 1)⟩, Or.inl rfl, rfl,
      by simp [Coord.linear]; omega⟩
  · rintro ⟨f, hf, hk, hblank⟩
    rcases hf with rfl | rfl | h0
    · simp [Coord.linear] at hblank; omega
    · simp at hk
    · simp at h0
  · intro hi
    exact ⟨⟨FillKind.chr, ⟨0, y⟩, w⟩, Or.inl rfl, rfl, by simp [Coord.linear]; omega⟩
  · rintro ⟨f, hf, hk, hblank⟩
    rcases hf with rfl | rfl | h0
    · simp [Coord.linear] at hblank; omega
    · simp at hk
    · simp at h0
  · intro hi
    exact ⟨⟨FillKind.chr, ⟨x, y⟩, w - x⟩, Or.inl rfl, rfl, by simp [Coord.linear]; omega⟩

/-- Witness for C2 at the concrete buffer `4 × 3`, cursor `(2, 1)`, cell `7`. -/
theorem clear_blanks_exact_range_witness :
    (clear ClearType.FromCursorDown ⟨2, 1⟩ ⟨4, 3⟩).blanks 4 3 7 ↔
      1 * 4 + 2 ≤ 7 ∧ 7 < 4 * 3 :=
  (clear_blanks_exact_range 4 3 2 1 7 (by norm_num) (by norm_num)).2.1

/-- C4 counterexample: at cursor `(3, 5)` in a `10 × 10` buffer, clearing the
current line issues the cursor move `(0, 5)` — the start of the row — and not
a move back to the original position `(3, 5)`. -/
theorem clear_cursor_effects_counterexample :
    (clear ClearType.CurrentLine ⟨3, 5⟩ ⟨10, 10⟩).moves = [⟨0, 5⟩] ∧
    ((⟨0, 5⟩ : Coord) ≠ ⟨3, 5⟩) := by decide

/-- C4 (amended): clearing the entire screen relocates the cursor to the
origin `(0, 0)`; clearing the current line relocates the cursor to the start
(column 0) of its current row, not to its original column; clearing until
line-end restores the cursor to its original pre-clear position after the
native write; and no other clear variant (from-cursor-down, from-cursor-up)
moves the cursor. -/
theorem clear_cursor_effects_amended (pos : Coord) (buffer_size : Size) :
    (clear ClearType.All pos buffer_size).moves = [⟨0, 0⟩] ∧
    (clear ClearType.CurrentLine pos buffer_size).moves = [⟨0, pos.y⟩] ∧
    (clear ClearType.UntilNewLine pos buffer_size).moves = [⟨pos.x, pos.y⟩] ∧
    (clear ClearType.FromCursorDown pos buffer_size).moves = [] ∧
    (clear ClearType.FromCursorUp pos buffer_size).moves = [] := by
  refine ⟨rfl, rfl, rfl, ?_, rfl⟩
  simp only [clear, clear_after_cursor, clear_winapi]

/-- C3 counterexample.  First scenario: a `10 × 10` buffer with window
`(0,0)-(9,9)`; requesting `20 × 20` grows the buffer to `20 × 20`, then the
window-resize native call fails — `set_size` returns the error with the buffer
still grown (`bufW = 20 ≠ 10`), not shrunk back.  Second scenario: a `50 × 50`
buffer whose largest window size is `15`; requesting `20 × 20` resizes the
window to `(0,0)-(19,19)` and only then fails with width-too-large, leaving
the changed geometry (`winRight = 19 ≠ 9`) in place. -/
theorem set_size_unwind_counterexample :
    ((set_size 20 20 ⟨10, 10, 0, 0, 9, 9, 100, 100⟩ ⟨false, true, false, false⟩).1 =
        Except.error (CTError.Io 1) ∧
      (set_size 20 20 ⟨10, 10, 0, 0, 9, 9, 100, 100⟩ ⟨false, true, false, false⟩).2.1.bufW =
        20 ∧ (20 : Int) ≠ 10) ∧
    ((set_size 20 20 ⟨50, 50, 0, 0, 9, 9, 15, 100⟩ ⟨false, false, false, false⟩).1 =
        Except.error CTError.TerminalWidthTooLarge ∧
      (set_size 20 20 ⟨50, 50, 0, 0, 9, 9, 15, 100⟩
          ⟨false, false, false, false⟩).2.1.winRight = 19 ∧ (19 : Int) ≠ 9) := by
  decide

/-- Helper: through the `set_size_after_grow` tail, when the window-resize and
shrink calls succeed the buffer size returns to its pre-grow value. -/
theorem set_size_after_grow_bufRestore (w h nw nh : Int) (rb : Bool) (s0 : ConsoleState)
    (fl : Faults) (tr : List NativeCall) (hinfo : fl.setInfoFails = false)
    (hshrink : fl.shrinkFails = false) :
    (set_size_after_grow w h s0.bufW s0.bufH rb
        (if rb then { s0 with bufW := nw, bufH := nh } else s0) fl tr).2.1.bufW = s0.bufW ∧
    (set_size_after_grow w h s0.bufW s0.bufH rb
        (if rb then { s0 with bufW := nw, bufH := nh } else s0) fl tr).2.1.bufH =
      s0.bufH := by
  cases rb <;> simp only [set_size_after_grow, hinfo, hshrink, Bool.and_false,
    Bool.false_eq_true, Bool.and_true, if_false, if_true, ite_false, ite_true] <;>
    split_ifs <;> exact ⟨rfl, rfl⟩

/-- C3 (amended): the buffer grown to satisfy the resize is shrunk back to its
original size exactly when the window-resize call and the shrink call both
succeed — in particular on the success path and on the late size-too-large
error paths; but when the window-resize native call fails after a grow, or the
shrink itself fails, the grown buffer is left in place, and the size-too-large
validation runs only after the window has been resized. -/
theorem set_size_buffer_restore_amended (width height : Nat) (s : ConsoleState) (fl : Faults)
    (hinfo : fl.setInfoFails = false) (hshrink : fl.shrinkFails = false) :
    (set_size width height s fl).2.1.bufW = s.bufW ∧
    (set_size width height s fl).2.1.bufH = s.bufH := by
  simp only [set_size]
  split
  · exact ⟨rfl, rfl⟩
  split
  · exact ⟨rfl, rfl⟩
  split
  · exact ⟨rfl, rfl⟩
  split
  · exact ⟨rfl, rfl⟩
  split
  · exact ⟨rfl, rfl⟩
  exact set_size_after_grow_bufRestore _ _ _ _ _ _ _ _ hinfo hshrink

/-- Witness for C3's amended theorem: requesting `20 × 20` on a `10 × 10`
buffer with all native calls succeeding restores the buffer size. -/
theorem set_size_buffer_restore_amended_witness :
    (set_size 20 20 ⟨10, 10, 0, 0, 9, 9, 100, 100⟩
        ⟨false, false, false, false⟩).2.1.bufW = 10 ∧
    (set_size 20 20 ⟨10, 10, 0, 0, 9, 9, 100, 100⟩
        ⟨false, false, false, false⟩).2.1.bufH = 10 :=
  set_size_buffer_restore_amended 20 20 ⟨10, 10, 0, 0, 9, 9, 100, 100⟩
    ⟨false, false, false, false⟩ rfl rfl

/-- C10: requesting a width of at most 1 fails with `TerminalWidthTooSmall`,
and (for widths at least 2) a height of at most 1 fails with
`TerminalHeightTooSmall`; in both cases before any native call is made — the
trace is empty and the console state is returned unchanged. -/
theorem set_size_too_small_no_native_calls (width height : Nat) (s : ConsoleState)
    (fl : Faults) :
    (width ≤ 1 →
      set_size width height s fl = (Except.error CTError.TerminalWidthTooSmall, s, [])) ∧
    (2 ≤ width → height ≤ 1 →
      set_size width height s fl = (Except.error CTError.TerminalHeightTooSmall, s, [])) := by
  constructor
  · intro hw
    simp only [set_size, if_pos hw]
  · intro hw hh
    have hw' : ¬ width ≤ 1 := by omega
    simp only [set_size, if_neg hw', if_pos hh]

/-- Witness for C10 at the concrete request `1 × 30` (width too small) and
`30 × 0` (height too small). -/
theorem set_size_too_small_no_native_calls_witness :
    set_size 1 30 ⟨10, 10, 0, 0, 9, 9, 100, 100⟩ ⟨false, false, false, false⟩ =
      (Except.error CTError.TerminalWidthTooSmall,
        ⟨10, 10, 0, 0, 9, 9, 100, 100⟩, []) ∧
    set_size 30 0 ⟨10, 10, 0, 0, 9, 9, 100, 100⟩ ⟨false, false, false, false⟩ =
      (Except.error CTError.TerminalHeightTooSmall,
        ⟨10, 10, 0, 0, 9, 9, 100, 100⟩, []) :=
  ⟨(set_size_too_small_no_native_calls 1 30 _ _).1 (by norm_num),
   (set_size_too_small_no_native_calls 30 0 _ _).2 (by norm_num) (by norm_num)⟩

/-- C5: for every sink state and every caller-supplied operations function
(characterized by the bytes it writes and the value it returns, including a
failure value), `sync_update` leaves a single flush delivering, in order, any
previously pending bytes, the begin marker's bytes (never after any byte
written by the operations), all the operations' bytes, and the end marker's
bytes — the flush coming after the end marker — and passes the operations'
return value through unchanged. -/
theorem sync_update_order {α : Type} (s : Sink) (beginC endC : Command)
    (opBytes : List Nat) (opResult : α)
    (hb : beginC.ansiSupported = true) (he : endC.ansiSupported = true) :
    sync_update s beginC endC opBytes opResult =
      (Except.ok opResult,
        { pending := [],
          events := s.events ++
            [SinkEvent.flushed (s.pending ++ beginC.ansi ++ opBytes ++ endC.ansi)] }) := by
  simp [sync_update, queue, execute, Sink.flush, Sink.writeAnsi, hb, he]

/-- Witness for C5 with a concrete sink and an operations function that itself
fails (returns `Except.error CTError.Test`): the end marker and the flush
still occur, and the failure value is passed through. -/
theorem sync_update_order_witness :
    sync_update ⟨[1], []⟩ ⟨0, [2], true⟩ ⟨1, [3], true⟩ [4]
        (Except.error CTError.Test : Except CTError Unit) =
      (Except.ok (Except.error CTError.Test),
        { pending := [], events := [SinkEvent.flushed [1, 2, 4, 3]] }) :=
  sync_update_order ⟨[1], []⟩ ⟨0, [2], true⟩ ⟨1, [3], true⟩ [4]
    (Except.error CTError.Test : Except CTError Unit) rfl rfl

/-- C6: for every command whose viability probe is false, `queue` first
flushes all bytes already queued but not yet flushed in the sink (the
`flushed` event delivering exactly the old pending bytes), then invokes the
command's direct native call (the `native` event coming after the flush), and
writes none of that command's ANSI bytes into the sink (the resulting pending
buffer is empty and only the old pending bytes were delivered). -/
theorem queue_native_fallback (s : Sink) (c : Command) (h : c.ansiSupported = false) :
    queue s c =
      { pending := [],
        events := s.events ++ [SinkEvent.flushed s.pending, SinkEvent.native c.id] } := by
  simp [queue, Sink.flush, h]

/-- Witness for C6: a sink with pending bytes `[9, 9]` and a non-viable
command with ANSI bytes `[5]`: the pending bytes are flushed, the native call
follows, and `[5]` appears nowhere. -/
theorem queue_native_fallback_witness :
    queue ⟨[9, 9], []⟩ ⟨7, [5], false⟩ =
      { pending := [],
        events := [SinkEvent.flushed [9, 9], SinkEvent.native 7] } :=
  queue_native_fallback ⟨[9, 9], []⟩ ⟨7, [5], false⟩ rfl

theorem runWriteAnsi_none (chunks : List (List Nat)) (a : Adapter) (idx : Nat)
    (spurious : Bool) :
    (runWriteAnsi a chunks none idx spurious).1.res = a.res ∧
    (runWriteAnsi a chunks none idx spurious).2 = !spurious := by
  induction chunks generalizing a idx with
  | nil => simp [runWriteAnsi]
  | cons c rest ih =>
    simpa [runWriteAnsi, Adapter.writeStr] using ih _ (idx + 1)

theorem runWriteAnsi_fail (chunks : List (List Nat)) (a : Adapter) (idx k : Nat)
    (spurious : Bool) (h1 : idx ≤ k) (h2 : k < idx + chunks.length) :
    (runWriteAnsi a chunks (some k) idx spurious).1.res = some (CTError.Io k) ∧
    (runWriteAnsi a chunks (some k) idx spurious).2 = false := by
  induction chunks generalizing a idx with
  | nil => simp at h2; omega
  | cons c rest ih =>
    by_cases hk : k = idx
    · subst hk
      simp [runWriteAnsi, Adapter.writeStr]
    · have hne : ¬ ((some k : Option Nat) = some idx) := by simp [hk]
      have h2' : k < (idx + 1) + rest.length := by simp at h2; omega
      simpa [runWriteAnsi, Adapter.writeStr, hne] using
        ih _ (idx + 1) (by omega) h2'

/-- C9: when the sink itself fails on the `k`-th write the command performs,
`write_command_ansi` returns an ordinary error preserving the underlying io
cause `k` and never panics; whereas when the command's `write_ansi` reports an
error without the sink having failed (`spurious` with no sink fault), the call
panics, and when neither happens it returns success. -/
theorem write_command_ansi_fault_policy (chunks : List (List Nat)) (spurious : Bool)
    (k : Nat) :
    (k < chunks.length →
      write_command_ansi chunks spurious (some k) = WriteOutcome.err (CTError.Io k) ∧
      write_command_ansi chunks spurious (some k) ≠ WriteOutcome.panicked) ∧
    (spurious = true → write_command_ansi chunks spurious none = WriteOutcome.panicked) ∧
    (spurious = false → write_command_ansi chunks spurious none = WriteOutcome.ok) := by
  refine ⟨?_, ?_, ?_⟩
  · intro hk
    have h := runWriteAnsi_fail chunks ⟨[], none⟩ 0 k spurious (Nat.zero_le k) (by omega)
    constructor
    · simp [write_command_ansi, h.1, h.2]
    · simp [write_command_ansi, h.1, h.2]
  · intro hs
    subst hs
    have h := runWriteAnsi_none chunks ⟨[], none⟩ 0 true
    simp [write_command_ansi, h.1, h.2]
  · intro hs
    subst hs
    have h := runWriteAnsi_none chunks ⟨[], none⟩ 0 false
    simp [write_command_ansi, h.2]

/-- Witness for C9: a command writing one chunk against a sink that fails on
that write returns the io error with its cause, and does not panic; the same
command rendering spuriously-erroring against a healthy sink panics. -/
theorem write_command_ansi_fault_policy_witness :
    (write_command_ansi [[65]] false (some 0) = WriteOutcome.err (CTError.Io 0) ∧
      write_command_ansi [[65]] false (some 0) ≠ WriteOutcome.panicked) ∧
    write_command_ansi [[65]] true none = WriteOutcome.panicked :=
  ⟨(write_command_ansi_fault_policy [[65]] false 0).1 (by decide),
   (write_command_ansi_fault_policy [[65]] true 0).2.1 rfl⟩

/-- C7: provided the disable call itself succeeds, the cursor-position query
restores the raw-mode flag to its pre-call state on every exit path — for
every query outcome (success, timeout error, or I/O failure) and whether or
not the enable call succeeds — and when raw mode was already enabled it
issues no raw-mode toggle at all and passes the query result through. -/
theorem position_restores_raw_mode (rawInit : Bool)
    (queryRes : Except CTError (Nat × Nat)) (enableOk disableOk : Bool)
    (hd : disableOk = true) :
    (position rawInit queryRes enableOk disableOk).2.1 = rawInit ∧
    (rawInit = true →
      (position rawInit queryRes enableOk disableOk).2.2 = 0 ∧
      (position rawInit queryRes enableOk disableOk).1 = queryRes) := by
  subst hd
  cases rawInit <;> cases enableOk <;> simp [position, read_position]

/-- Witness for C7: raw mode initially disabled and the query timing out —
the flag is disabled again afterwards. -/
theorem position_restores_raw_mode_witness :
    (position false (Except.error CTError.CursorPositionTimeout) true true).2.1 = false :=
  (position_restores_raw_mode false (Except.error CTError.CursorPositionTimeout)
    true true rfl).1

/-- C8 counterexample: with `poll_internal` failing on 100 consecutive
iterations — each burning a fresh 2000 ms timeout, far beyond any single
fixed timeout budget — the `read_position_raw` loop still has not returned:
poll errors are retried without bound, so the loop does not always terminate
within the fixed timeout budget. -/
theorem read_position_raw_loop_counterexample :
    read_position_raw_loop (List.replicate 100 PollStep.err) = none := by decide

/-- C8 (amended): after any finite prefix of discarded iterations (poll
errors, or ready events whose read yields no cursor-position event) the loop
is still running — poll errors are retried indefinitely, each retry with a
fresh full timeout, so termination within a single fixed budget is not
guaranteed; when a deciding iteration arrives, a poll timeout returns the
dedicated `CursorPositionTimeout` error and a matching cursor-position event
returns its reported position. -/
theorem read_position_raw_loop_amended (pre rest : List PollStep) (p : Nat × Nat)
    (hpre : ∀ s ∈ pre, s = PollStep.err ∨ s = PollStep.ready none) :
    read_position_raw_loop pre = none ∧
    read_position_raw_loop (pre ++ PollStep.timeout :: rest) =
      some (Except.error CTError.CursorPositionTimeout) ∧
    read_position_raw_loop (pre ++ PollStep.ready (some p) :: rest) =
      some (Except.ok p) := by
  induction pre with
  | nil => simp [read_position_raw_loop]
  | cons s pre ih =>
    have hs := hpre s (List.mem_cons_self _ _)
    have hrest : ∀ t ∈ pre, t = PollStep.err ∨ t = PollStep.ready none :=
      fun t ht => hpre t (List.mem_cons_of_mem _ ht)
    rcases hs with rfl | rfl <;>
      simpa [read_position_raw_loop] using ih hrest

/-- Witness for C8's amended theorem: one discarded poll error followed by a
timeout yields the dedicated timeout error. -/
theorem read_position_raw_loop_amended_witness :
    read_position_raw_loop [PollStep.err, PollStep.timeout] =
      some (Except.error CTError.CursorPositionTimeout) :=
  (read_position_raw_loop_amended [PollStep.err] [] (0, 0) (by decide)).2.1

end Crossterm
